import Mathlib

/-!
Verification of the unified ASR (speech-to-text) client core:
model-identifier parser, error taxonomy, three provider adapters
(OpenAI-style, Deepgram-style, Google-style) and the dispatch client.

The definitions below are a shallow embedding of the TypeScript source
(src/aisuite-js/src/asr/...).  JavaScript runtime values are modelled by
the inductive `Json` (with `jUndefined` for `undefined`, `jNaN` for the NaN
number, and dedicated constructors for the audio payload objects); objects
with dynamic keys are association lists in insertion order, and JS
assignment `o[k] = v` is `setKey` (update in place, else append), which is
exactly the key-order semantics of JS object literals and assignments.
Numbers are modelled as `Rat` (the sources only do exact decimal
arithmetic on them); `jNaN` stands for NaN.  Node/network effects
(`fs.readFileSync`, `fetch`, the OpenAI SDK call) are passed in through an
explicit environment, and each adapter's `transcribe` returns, next to its
result, the list of remote calls it issued, so that timeout/abort wiring
and outgoing payloads are visible to theorems.
-/

/-- The three accepted audio representations of `AudioInput`
(`string | Buffer | Uint8Array`), plus `other` for any further runtime
value a caller might pass in the untyped `file` field. -/
inductive FileVal where
  | path (p : String)
  | buffer (bytes : List Nat)
  | bytes (b : List Nat)
  | other (tag : String)
deriving DecidableEq, Repr

/-- JavaScript runtime values as the ASR core manipulates them.
`jStream` models the object returned by `fs.createReadStream`, `jFileObj`
the `File` built from a `Blob` in the OpenAI adapter, and `jFile` a raw
`AudioInput` value carried around unconverted. -/
inductive Json where
  | jUndefined
  | jNull
  | jNaN
  | jBool (b : Bool)
  | jNum (q : Rat)
  | jStr (s : String)
  | jArr (xs : List Json)
  | jObj (fields : List (String × Json))
  | jFile (f : FileVal)
  | jStream (path : String)
  | jFileObj (bytes : List Nat)
deriving Repr

/-- A JS object as an association list of fields in insertion order. -/
abbrev Obj := List (String × Json)

/-- JS truthiness of a value. -/
def truthy : Json → Bool
  | .jUndefined => false
  | .jNull => false
  | .jNaN => false
  | .jBool b => b
  | .jNum q => decide (q ≠ 0)
  | .jStr s => decide (s ≠ "")
  | .jArr _ => true
  | .jObj _ => true
  | .jFile _ => true
  | .jStream _ => true
  | .jFileObj _ => true

/-- First binding of key `k` (JS objects hold each key once). -/
def getKey : Obj → String → Option Json
  | [], _ => none
  | (k', v) :: rest, k => if k' = k then some v else getKey rest k

/-- JS assignment `o[k] = v`: overwrite in place, else append. -/
def setKey : Obj → String → Json → Obj
  | [], k, v => [(k, v)]
  | (k', v') :: rest, k, v =>
      if k' = k then (k, v) :: rest else (k', v') :: setKey rest k v

/-- Optional-chained field access `o?.k`: `undefined` unless `o` is an
object holding `k`. -/
def jGet (j : Json) (k : String) : Json :=
  match j with
  | .jObj fields => (getKey fields k).getD .jUndefined
  | _ => .jUndefined

/-- Optional-chained index access `a?.[i]`. -/
def jIdx (j : Json) (i : Nat) : Json :=
  match j with
  | .jArr xs => xs.getD i .jUndefined
  | _ => .jUndefined

/-- The elements of an array value (`forEach` iterates these). -/
def jArrElems : Json → List Json
  | .jArr xs => xs
  | _ => []

/-- JS `a || b`. -/
def jsOr (a b : Json) : Json := if truthy a then a else b

/-- Decimal value of a digit run. -/
def digitsVal (l : List Char) : Nat :=
  l.foldl (fun a c => 10 * a + (c.toNat - 48)) 0

/-- JS `parseFloat` on a string, for the sign/digits/fraction forms the
sources exercise; `none` models NaN (no leading number). -/
def parseFloatStr (s : String) : Option Rat :=
  let core : List Char → Option Rat := fun l =>
    let intPart := l.takeWhile Char.isDigit
    let rest := l.dropWhile Char.isDigit
    if intPart = [] then none
    else
      let base : Rat := (digitsVal intPart : Nat)
      let frac : Rat :=
        match rest with
        | '.' :: t =>
            let fd := t.takeWhile Char.isDigit
            ((digitsVal fd : Nat) : Rat) / ((10 : Rat) ^ fd.length)
        | _ => 0
      some (base + frac)
  match s.data with
  | '-' :: t => (core t).map (fun q => -q)
  | '+' :: t => core t
  | t => core t

/-- JS `parseFloat` applied to a runtime value: numbers pass through,
strings are parsed, everything else (and unparsable strings) is NaN. -/
def jsParseFloat : Json → Json
  | .jNum q => .jNum q
  | .jStr s =>
      match parseFloatStr s with
      | some q => .jNum q
      | none => .jNaN
  | _ => .jNaN

/-- JS numeric `+` on `parseFloat` results (number or NaN). -/
def jsAdd : Json → Json → Json
  | .jNum a, .jNum b => .jNum (a + b)
  | _, _ => .jNaN

/-- JS numeric division by a nonzero constant on a `parseFloat` result. -/
def jsDivC (a : Json) (d : Rat) : Json :=
  match a with
  | .jNum x => .jNum (x / d)
  | _ => .jNaN

/-- JS `<=` on normalized time offsets: true only for two numbers in
order (NaN compares false). -/
def jsLe : Json → Json → Bool
  | .jNum a, .jNum b => decide (a ≤ b)
  | _, _ => false

/-- Rendering of a number the way `toString` does for the integral values
the sources serialize (non-integral rationals are shown as a fraction;
no claim depends on that case). -/
def numToString (q : Rat) : String :=
  if q.den = 1 then toString q.num
  else toString q.num ++ "/" ++ toString q.den

/-- How Node serializes an audio value when it is coerced to a string
(`URLSearchParams.append` calls `toString()`); the byte cases model
Node's rendering abstractly - no claim depends on their exact text. -/
def fileToString : FileVal → String
  | .path p => p
  | .buffer b => String.intercalate "," (b.map toString)
  | .bytes b => String.intercalate "," (b.map toString)
  | .other tag => tag

/-- JS string coercion `String(v)` / `v.toString()` for the values the
sources serialize. -/
def jsToString : Json → String
  | .jUndefined => "undefined"
  | .jNull => "null"
  | .jNaN => "NaN"
  | .jBool true => "true"
  | .jBool false => "false"
  | .jNum q => numToString q
  | .jStr s => s
  | .jArr xs => String.intercalate "," (xs.map (fun _ => ""))
  | .jObj _ => "[object Object]"
  | .jFile f => fileToString f
  | .jStream p => p
  | .jFileObj _ => "[object File]"

/-- JS `x?.toString()`: `undefined` stays `undefined`, anything else is
coerced to a string. -/
def jsOptToString (v : Json) : Json :=
  match v with
  | .jUndefined => .jUndefined
  | .jNull => .jUndefined
  | w => .jStr (jsToString w)

/-- JS `key.startsWith(prefix)`, computed on the character lists (the
option keys are plain ASCII). -/
def strStartsWith (s pre : String) : Bool :=
  pre.data.isPrefixOf s.data

/-- JS `key.substring(n)`, computed on the character lists. -/
def strDrop (s : String) (n : Nat) : String :=
  String.mk (s.data.drop n)

/-- JS `String.prototype.trim`, computed on the character lists. -/
def strTrim (s : String) : String :=
  String.mk (((s.data.dropWhile Char.isWhitespace).reverse.dropWhile
    Char.isWhitespace).reverse)

/-! ## Model identifier parser (src/asr/core/model-parser.ts) -/

/-- The result of `parseModel`. -/
structure ParsedModel where
  provider : String
  model : String
deriving DecidableEq, Repr

/-- JS `String.prototype.split` with a one-character separator. -/
def jsSplit (c : Char) : List Char → List (List Char)
  | [] => [[]]
  | x :: xs =>
      let rest := jsSplit c xs
      if x = c then [] :: rest
      else
        match rest with
        | [] => [[x]]
        | y :: ys => (x :: y) :: ys

/-- `parseModel` splits `"provider:model"`; a thrown `Error` is the
`.error` case carrying the message. -/
def parseModel (model : String) : Except String ParsedModel :=
  let parts := jsSplit ':' model.data
  match parts with
  | [providerChars, modelNameChars] =>
      let provider := String.mk providerChars
      let modelName := String.mk modelNameChars
      if provider = "" || modelName = "" then
        .error ("Invalid model format: \"" ++ model ++
          "\". Both provider and model name are required.")
      else
        .ok { provider := provider, model := modelName }
  | _ =>
      .error ("Invalid model format: \"" ++ model ++
        "\". Expected format: \"provider:model\"")

/-- Substring test (used to state claims about error messages). -/
def strContains (s sub : String) : Bool :=
  decide (sub.data <:+: s.data)

/-! ## Error taxonomy (src/asr/core/errors.ts) -/

/-- A thrown `ASRError` (or subclass): its `name`, `message`, `provider`
and optional `code`. -/
structure ASRErr where
  name : String
  message : String
  provider : String
  code : Option String
deriving DecidableEq, Repr

/-- `new ASRError(message, provider, code)`. -/
def mkASRError (message provider : String) (code : Option String) : ASRErr :=
  { name := "ASRError", message := message, provider := provider, code := code }

/-- `new UnsupportedParameterError(parameter, provider)`. -/
def unsupportedParameterError (parameter provider : String) : ASRErr :=
  { name := "UnsupportedParameterError"
    message := "Parameter '" ++ parameter ++ "' is not supported by provider '" ++
      provider ++ "'"
    provider := provider
    code := some "UNSUPPORTED_PARAMETER" }

/-- `new ProviderNotConfiguredError(provider, availableProviders)`. -/
def providerNotConfiguredError (provider : String) (available : List String) : ASRErr :=
  { name := "ProviderNotConfiguredError"
    message := "Provider '" ++ provider ++ "' is not configured. Available providers: " ++
      String.intercalate ", " available
    provider := provider
    code := some "PROVIDER_NOT_CONFIGURED" }

/-- `new AudioProcessingError(message, provider)`. -/
def audioProcessingError (message provider : String) : ASRErr :=
  { name := "AudioProcessingError", message := message, provider := provider
    code := some "AUDIO_PROCESSING_ERROR" }

/-! ## Parameter validation

Each `validateParams` walks `Object.entries(params)` in order; a throw is
the `.error` case.  `console.warn` output is returned as the list of
warned keys on success (warnings printed before a later throw are console
effects the JS return value does not carry either). -/

def openaiSupportedParams : List String :=
  ["language", "timestamps", "temperature", "prompt", "response_format"]

def openaiUnsupportedParams : List String :=
  ["word_confidence", "speaker_labels"]

/-- `OpenAIASRProvider.validateParams`: throws on an unsupported key
(whatever its value), warns on unknown non-`openai_` keys. -/
def openaiValidateParams (model : String) (params : Obj) :
    Except ASRErr (List String) :=
  match params with
  | [] => .ok []
  | (k, _) :: rest =>
      if k ∈ openaiUnsupportedParams then
        .error (unsupportedParameterError k "openai")
      else
        (openaiValidateParams model rest).map fun warns =>
          if k ∉ openaiSupportedParams ∧ ¬ strStartsWith k "openai_" then
            k :: warns
          else warns

def deepgramSupportedParams : List String :=
  ["language", "timestamps", "word_confidence", "speaker_labels",
   "smart_format", "punctuate", "diarize", "utterances"]

/-- `DeepgramASRProvider.validateParams`: never throws, only warns. -/
def deepgramValidateParams (model : String) (params : Obj) :
    Except ASRErr (List String) :=
  .ok (params.filterMap fun kv =>
    if kv.1 ∉ deepgramSupportedParams ∧ ¬ strStartsWith kv.1 "deepgram_" then
      some kv.1
    else none)

def googleSupportedParams : List String :=
  ["language", "timestamps", "word_confidence", "speaker_labels",
   "enable_word_time_offsets", "enable_word_confidence",
   "enable_speaker_diarization", "diarization_speaker_count",
   "enable_automatic_punctuation"]

/-- `GoogleCloudASRProvider.validateParams`: never throws, only warns. -/
def googleValidateParams (model : String) (params : Obj) :
    Except ASRErr (List String) :=
  .ok (params.filterMap fun kv =>
    if kv.1 ∉ googleSupportedParams ∧ ¬ strStartsWith kv.1 "google_" then
      some kv.1
    else none)

/-! ## Parameter translation -/

/-- One iteration of `OpenAIASRProvider.translateParams`'s loop. -/
def openaiTranslateEntry (acc : Obj) (k : String) (v : Json) : Obj :=
  if k = "language" then setKey acc "language" v
  else if k = "timestamps" then
    (if truthy v then setKey acc "response_format" (.jStr "verbose_json") else acc)
  else if k = "temperature" then setKey acc "temperature" v
  else if strStartsWith k "openai_" then setKey acc (strDrop k 7) v
  else setKey acc k v

/-- `OpenAIASRProvider.translateParams`. -/
def openaiTranslateParams (model : String) (params : Obj) : Obj :=
  params.foldl (fun acc kv => openaiTranslateEntry acc kv.1 kv.2) []

/-- One iteration of `DeepgramASRProvider.translateParams`'s loop. -/
def deepgramTranslateEntry (acc : Obj) (k : String) (v : Json) : Obj :=
  if k = "language" then setKey acc "language" v
  else if k = "timestamps" then
    (if truthy v then setKey acc "utterances" (.jBool true) else acc)
  else if k = "word_confidence" then
    (if truthy v then setKey acc "smart_format" (.jBool true) else acc)
  else if k = "speaker_labels" then
    (if truthy v then setKey acc "diarize" (.jBool true) else acc)
  else if strStartsWith k "deepgram_" then setKey acc (strDrop k 9) v
  else setKey acc k v

/-- `DeepgramASRProvider.translateParams`. -/
def deepgramTranslateParams (model : String) (params : Obj) : Obj :=
  params.foldl (fun acc kv => deepgramTranslateEntry acc kv.1 kv.2) []

/-- One iteration of `GoogleCloudASRProvider.translateParams`'s loop; for
`speaker_labels` the source reads `translated.diarizationSpeakerCount || 2`
back from the object under construction. -/
def googleTranslateEntry (acc : Obj) (k : String) (v : Json) : Obj :=
  if k = "language" then setKey acc "languageCode" v
  else if k = "timestamps" then
    (if truthy v then setKey acc "enableWordTimeOffsets" (.jBool true) else acc)
  else if k = "word_confidence" then
    (if truthy v then setKey acc "enableWordConfidence" (.jBool true) else acc)
  else if k = "speaker_labels" then
    (if truthy v then
      let acc1 := setKey acc "enableSpeakerDiarization" (.jBool true)
      setKey acc1 "diarizationSpeakerCount"
        (jsOr ((getKey acc1 "diarizationSpeakerCount").getD .jUndefined) (.jNum 2))
    else acc)
  else if strStartsWith k "google_" then setKey acc (strDrop k 7) v
  else setKey acc k v

/-- `GoogleCloudASRProvider.translateParams`. -/
def googleTranslateParams (model : String) (params : Obj) : Obj :=
  params.foldl (fun acc kv => googleTranslateEntry acc kv.1 kv.2) []

/-! ## Unified result shape (src/asr/types/common.ts)

Field values keep their dynamic (JS) type: the adapters copy whatever the
response tree holds. -/

/-- A normalized word record; `end_` embeds the source's `end` field. -/
structure Word where
  text : Json
  start : Json
  end_ : Json
  confidence : Json := .jUndefined
  speaker : Json := .jUndefined
deriving Repr

/-- A normalized segment record. -/
structure Segment where
  text : Json
  start : Json
  end_ : Json
  speaker : Json := .jUndefined
deriving Repr

/-- The unified `TranscriptionResult`. -/
structure TranscriptionResult where
  text : Json
  language : Json
  confidence : Json
  words : List Word
  segments : List Segment
deriving Repr

/-! ## Response normalization -/

/-- One word of an OpenAI verbose response. -/
def openaiAdaptWord (w : Json) : Word :=
  { text := jGet w "word", start := jGet w "start", end_ := jGet w "end"
    confidence := jGet w "confidence" }

/-- One segment of an OpenAI verbose response. -/
def openaiAdaptSegment (s : Json) : Segment :=
  { text := jGet s "text", start := jGet s "start", end_ := jGet s "end" }

/-- `adaptResponse` of the OpenAI adapter, as a value: on a tree whose
truthy `words` or `segments` field is not an array the source's `forEach`
throws a TypeError (wrapped as `API_ERROR` by the caller's catch-all);
this value function gives the result on the non-throwing domain, and the
theorems about it restrict to array-valued containers. -/
def openaiAdaptResponse (response : Json) : TranscriptionResult :=
  let words :=
    if truthy (jGet response "words") then
      (jArrElems (jGet response "words")).map openaiAdaptWord
    else []
  let segments :=
    if truthy (jGet response "segments") then
      (jArrElems (jGet response "segments")).map openaiAdaptSegment
    else []
  { text := jGet response "text"
    language := jsOr (jGet response "language") (.jStr "unknown")
    confidence := jGet response "confidence"
    words := words
    segments := segments }

/-- One word of a Deepgram response alternative. -/
def deepgramAdaptWord (w : Json) : Word :=
  { text := jGet w "word", start := jGet w "start", end_ := jGet w "end"
    confidence := jGet w "confidence"
    speaker := jsOptToString (jGet w "speaker") }

/-- One utterance of a Deepgram response. -/
def deepgramAdaptUtterance (u : Json) : Segment :=
  { text := jGet u "transcript", start := jGet u "start", end_ := jGet u "end"
    speaker := jsOptToString (jGet u "speaker") }

/-- The alternative `response.results?.channels?.[0]?.alternatives?.[0]`
that the Deepgram adapter reads. -/
def deepgramAlt (response : Json) : Json :=
  jIdx (jGet (jIdx (jGet (jGet response "results") "channels") 0) "alternatives") 0

/-- Whether a value is an actual JS array (only those have `forEach`). -/
def jsIsArray : Json → Bool
  | .jArr _ => true
  | _ => false

/-- The value `adaptResponse` of the Deepgram adapter returns when its
`forEach` loops do not throw (see `deepgramAdaptThrows` for the throwing
domain), with its fallback branch for a response tree that misses the
expected structure. -/
def deepgramAdaptResponse (response : Json) : TranscriptionResult :=
  let alt := deepgramAlt response
  if truthy alt then
    let words :=
      if truthy (jGet alt "words") then
        (jArrElems (jGet alt "words")).map deepgramAdaptWord
      else []
    let segments :=
      if truthy (jGet (jGet response "results") "utterances") then
        (jArrElems (jGet (jGet response "results") "utterances")).map
          deepgramAdaptUtterance
      else []
    { text := jGet alt "transcript"
      language := jsOr (jGet (jGet response "metadata") "language") (.jStr "unknown")
      confidence := jGet alt "confidence"
      words := words
      segments := segments }
  else
    { text := jsOr (jGet response "transcript") (.jStr "")
      language := .jStr "unknown"
      confidence := .jUndefined
      words := []
      segments := [] }

/-- Where the Deepgram `adaptResponse` throws: inside the main branch the
source calls `alternative.words.forEach` and then
`response.results.utterances.forEach` on any truthy field value, so a
truthy non-array raises a TypeError (in source order, `words` first);
the `transcribe` catch-all wraps that exception as `API_ERROR`.
`none` means the function returns `deepgramAdaptResponse` instead. -/
def deepgramAdaptThrows (response : Json) : Option String :=
  let alt := deepgramAlt response
  if truthy alt then
    if truthy (jGet alt "words") && ! jsIsArray (jGet alt "words") then
      some "alternative.words.forEach is not a function"
    else if truthy (jGet (jGet response "results") "utterances") &&
        ! jsIsArray (jGet (jGet response "results") "utterances") then
      some "response.results.utterances.forEach is not a function"
    else none
  else none

/-- `parseFloat(t?.seconds || '0') + parseFloat(t?.nanos || '0') / 1e9`:
the Google adapter's combination of a split time offset. -/
def googleTime (t : Json) : Json :=
  jsAdd (jsParseFloat (jsOr (jGet t "seconds") (.jStr "0")))
        (jsDivC (jsParseFloat (jsOr (jGet t "nanos") (.jStr "0"))) 1000000000)

/-- One word of a Google response alternative. -/
def googleAdaptWord (w : Json) : Word :=
  { text := jGet w "word"
    start := googleTime (jGet w "startTime")
    end_ := googleTime (jGet w "endTime")
    confidence := jGet w "confidence"
    speaker := jsOptToString (jGet w "speakerTag") }

/-- The accumulator of the Google adapter's `forEach` over `results`:
transcript so far, words so far, segments so far. -/
structure GAcc where
  transcript : String
  words : List Word
  segments : List Segment

/-- The guard `result.alternatives && result.alternatives[0]`. -/
def googleResultOk (result : Json) : Bool :=
  truthy (jGet result "alternatives") && truthy (jIdx (jGet result "alternatives") 0)

/-- The word records one `results` element contributes. -/
def googleResultWords (result : Json) : List Word :=
  if googleResultOk result then
    let alternative := jIdx (jGet result "alternatives") 0
    if truthy (jGet alternative "words") then
      (jArrElems (jGet alternative "words")).map googleAdaptWord
    else []
  else []

/-- One iteration of the Google adapter's `forEach` over `results`. -/
def googleAdaptResult (acc : GAcc) (result : Json) : GAcc :=
  if googleResultOk result then
    let alternative := jIdx (jGet result "alternatives") 0
    { transcript := acc.transcript ++ jsToString (jGet alternative "transcript") ++ " "
      words := acc.words ++ googleResultWords result
      segments := acc.segments ++
        [{ text := jGet alternative "transcript"
           start := googleTime (jGet result "resultEndTime")
           end_ := googleTime (jGet result "resultEndTime") }] }
  else acc

/-- `adaptResponse` of the Google adapter, as a value: like the other
adapters the source's `forEach` would throw on a truthy non-array
`results` or `words` field; the only tree the Google `transcribe` ever
feeds it is the well-formed canned `googleMockResponse`, and the
theorems about it restrict to array-valued containers. -/
def googleAdaptResponse (response : Json) : TranscriptionResult :=
  let acc :=
    if truthy (jGet response "results") then
      (jArrElems (jGet response "results")).foldl googleAdaptResult ⟨"", [], []⟩
    else ⟨"", [], []⟩
  { text := .jStr (strTrim acc.transcript)
    language := jsOr (jGet (jIdx (jGet response "results") 0) "languageCode") (.jStr "unknown")
    confidence := jGet (jIdx (jGet (jIdx (jGet response "results") 0) "alternatives") 0) "confidence"
    words := acc.words
    segments := acc.segments }

/-! ## Requests, options and the effect environment -/

/-- The per-call options (`RequestOptions`); only `timeout` is read. -/
structure RequestOptions where
  timeout : Option Nat := none
deriving DecidableEq, Repr

/-- The unified `TranscriptionRequest`: the named `model` and `file`
fields and then the remaining (option) entries of the request object
literal, in insertion order.  `Object.entries(request)` is
`requestEntries`. -/
structure TranscriptionRequest where
  model : String
  file : FileVal
  extra : Obj := []

/-- `Object.entries` of a request object literal `{model, file, ...opts}`. -/
def requestEntries (r : TranscriptionRequest) : Obj :=
  ("model", .jStr r.model) :: ("file", .jFile r.file) :: r.extra

/-- A request object literal is well formed when its option keys do not
repeat the two named fields. -/
def TranscriptionRequest.wf (r : TranscriptionRequest) : Prop :=
  (∀ kv ∈ r.extra, kv.1 ≠ "model" ∧ kv.1 ≠ "file") ∧
    (r.extra.map Prod.fst).Nodup

/-- A remote network operation an adapter issued: outgoing query string
pairs, JSON body, raw audio bytes, headers, and the abort signal attached
to it (`some t` models `AbortSignal.timeout(t)`; `none` means no abort
mechanism was attached). -/
structure RemoteCall where
  url : Option String := none
  query : List (String × String) := []
  body : Json := .jUndefined
  bodyBytes : List Nat := []
  headers : List (String × String) := []
  signal : Option Nat := none
deriving Repr

/-- The outcome `fetch` hands back when it does not reject. -/
structure FetchResponse where
  ok : Bool
  status : Nat
  statusText : String
  json : Except String Json

/-- The external world of one call: the file system read by
`fs.readFileSync` (`none` = the read throws), the Deepgram `fetch`
outcome (`.error` = the promise rejects), and the OpenAI SDK call outcome. -/
structure Env where
  fs : String → Option (List Nat) := fun _ => none
  deepgramFetch : Except String FetchResponse := .error "fetch failed"
  openaiCreate : Except String Json := .error "network error"

/-! ## Deepgram adapter transcribe (src/asr/providers/deepgram/provider.ts) -/

/-- Deepgram provider configuration. -/
structure DeepgramConfig where
  apiKey : String
  baseURL : Option String := none
deriving Repr

/-- `config.baseURL || 'https://api.deepgram.com/v1'`. -/
def deepgramBaseURL (cfg : DeepgramConfig) : String :=
  match cfg.baseURL with
  | some s => if s = "" then "https://api.deepgram.com/v1" else s
  | none => "https://api.deepgram.com/v1"

/-- A failure on the way to the remote call: either an `ASRError` the
adapter threw itself, or a plain exception message (re-wrapped by the
adapter's catch-all). -/
abbrev Thrown := ASRErr ⊕ String

/-- The audio-input normalization of the Deepgram and Google adapters
(path read with `fs.readFileSync`, buffer and byte array taken as is,
anything else rejected). -/
def normalizeAudioBytes (env : Env) (provider : String) (f : FileVal) :
    Except Thrown (List Nat) :=
  match f with
  | .path p =>
      match env.fs p with
      | some b => .ok b
      | none => .error (.inr ("ENOENT: no such file or directory, open '" ++ p ++ "'"))
  | .buffer b => .ok b
  | .bytes b => .ok b
  | .other _ =>
      .error (.inl (mkASRError "Unsupported audio input type" provider
        (some "INVALID_INPUT")))

/-- The catch-all of `DeepgramASRProvider.transcribe`: an `ASRError` is
rethrown unchanged, any other exception is wrapped with code `API_ERROR`. -/
def deepgramWrap : Thrown → ASRErr
  | .inl e => e
  | .inr msg => mkASRError ("Deepgram ASR error: " ++ msg) "deepgram" (some "API_ERROR")

/-- The query-string pairs `DeepgramASRProvider.transcribe` builds:
`model` first, then every translated entry whose value is neither
`undefined` nor `null`, coerced with `toString()`. -/
def deepgramQueryParams (r : TranscriptionRequest) : List (String × String) :=
  ("model", r.model) ::
    ((deepgramTranslateParams r.model (requestEntries r)).filter fun kv =>
        match kv.2 with
        | .jUndefined => false
        | .jNull => false
        | _ => true).map fun kv => (kv.1, jsToString kv.2)

/-- Plain rendering of the query string (percent-encoding not modelled;
no claim depends on it). -/
def renderQuery (q : List (String × String)) : String :=
  String.intercalate "&" (q.map fun kv => kv.1 ++ "=" ++ kv.2)

/-- `DeepgramASRProvider.transcribe`: validate, translate, build the
query, normalize the audio, `fetch` with the optional abort signal, check
`response.ok`, parse JSON, adapt - where `adaptResponse` either throws a
TypeError (`deepgramAdaptThrows`, re-wrapped as `API_ERROR` by the
catch-all) or returns `deepgramAdaptResponse`.  Returns the result (a
throw is `.error`) and the remote calls issued. -/
def deepgramTranscribe (cfg : DeepgramConfig) (env : Env)
    (r : TranscriptionRequest) (options : RequestOptions) :
    Except ASRErr TranscriptionResult × List RemoteCall :=
  let query := deepgramQueryParams r
  match normalizeAudioBytes env "deepgram" r.file with
  | .error e => (.error (deepgramWrap e), [])
  | .ok audioData =>
      let call : RemoteCall :=
        { url := some (deepgramBaseURL cfg ++ "/listen?" ++ renderQuery query)
          query := query
          bodyBytes := audioData
          headers := [("Authorization", "Token " ++ cfg.apiKey),
                      ("Content-Type", "audio/wav")]
          signal :=
            match options.timeout with
            | some t => if t ≠ 0 then some t else none
            | none => none }
      match env.deepgramFetch with
      | .error msg => (.error (deepgramWrap (.inr msg)), [call])
      | .ok resp =>
          if resp.ok then
            match resp.json with
            | .error msg => (.error (deepgramWrap (.inr msg)), [call])
            | .ok j =>
                match deepgramAdaptThrows j with
                | some msg => (.error (deepgramWrap (.inr msg)), [call])
                | none => (.ok (deepgramAdaptResponse j), [call])
          else
            (.error (mkASRError ("Deepgram API error: " ++ toString resp.status ++
              " " ++ resp.statusText) "deepgram" (some "API_ERROR")), [call])

/-! ## OpenAI adapter transcribe (src/asr/providers/openai/provider.ts) -/

/-- The `audioFile` the OpenAI adapter prepares: a read stream for a
path, a `File` object for a buffer or byte array, and the raw value
unchanged for anything else. -/
def openaiAudioFile (f : FileVal) : Json :=
  match f with
  | .path p => .jStream p
  | .buffer b => .jFileObj b
  | .bytes b => .jFileObj b
  | .other t => .jFile (.other t)

/-- The body `{file: audioFile, model: request.model, ...translatedParams}`
of the OpenAI SDK call (the spread overwrites `file` and `model`). -/
def openaiRequestBody (r : TranscriptionRequest) : Obj :=
  (openaiTranslateParams r.model (requestEntries r)).foldl
    (fun acc kv => setKey acc kv.1 kv.2)
    [("file", openaiAudioFile r.file), ("model", .jStr r.model)]

/-- `OpenAIASRProvider.transcribe`: validate (may throw), translate,
prepare the audio, issue the SDK call (no timeout or abort option is
passed to it), adapt the response; any non-`ASRError` failure is wrapped
with code `API_ERROR`. -/
def openaiTranscribe (env : Env) (r : TranscriptionRequest)
    (options : RequestOptions) :
    Except ASRErr TranscriptionResult × List RemoteCall :=
  match openaiValidateParams r.model (requestEntries r) with
  | .error e => (.error e, [])
  | .ok _ =>
      let call : RemoteCall := { body := .jObj (openaiRequestBody r), signal := none }
      match env.openaiCreate with
      | .error msg =>
          (.error (mkASRError ("OpenAI ASR error: " ++ msg) "openai"
            (some "API_ERROR")), [call])
      | .ok j => (.ok (openaiAdaptResponse j), [call])

/-! ## Google adapter transcribe (src/asr/providers/google/provider.ts) -/

/-- Google provider configuration (held but not used by the mock call). -/
structure GoogleCloudConfig where
  apiKey : Option String := none
  credentialsPath : Option String := none
deriving Repr

/-- The catch-all of `GoogleCloudASRProvider.transcribe`. -/
def googleWrap : Thrown → ASRErr
  | .inl e => e
  | .inr msg => mkASRError ("Google Cloud ASR error: " ++ msg) "google" (some "API_ERROR")

/-- Base64 alphabet lookup. -/
def base64Char (n : Nat) : Char :=
  ("ABCDEFGHIJKLMNOPQRSTUVWXYZabcdefghijklmnopqrstuvwxyz0123456789+/".data).getD n '='

/-- `Buffer.toString('base64')` on the audio bytes. -/
def toBase64 : List Nat → String
  | [] => ""
  | [a] =>
      String.mk [base64Char (a / 4), base64Char (a % 4 * 16)] ++ "=="
  | [a, b] =>
      String.mk [base64Char (a / 4), base64Char (a % 4 * 16 + b / 16),
        base64Char (b % 16 * 4)] ++ "="
  | a :: b :: c :: rest =>
      String.mk [base64Char (a / 4), base64Char (a % 4 * 16 + b / 16),
        base64Char (b % 16 * 4 + c / 64), base64Char (c % 64)] ++ toBase64 rest

/-- The request body the Google adapter prepares (built and then left
unused by the mock remote call, exactly as in the source). -/
def googleRequestBody (r : TranscriptionRequest) (audioData : List Nat) : Json :=
  .jObj [("config", .jObj
            ((googleTranslateParams r.model (requestEntries r)).foldl
              (fun acc kv => setKey acc kv.1 kv.2)
              [("encoding", .jStr "LINEAR16"),
               ("sampleRateHertz", .jNum 16000),
               ("languageCode", .jStr "en-US"),
               ("model", .jStr r.model)])),
         ("audio", .jObj [("content", .jStr (toBase64 audioData))])]

/-- The canned response hardcoded in `GoogleCloudASRProvider.transcribe`. -/
def googleMockResponse : Json :=
  .jObj [("results", .jArr [
    .jObj [("alternatives", .jArr [
      .jObj [("transcript", .jStr "Mock transcription from Google Cloud Speech-to-Text"),
             ("confidence", .jNum 0.95),
             ("words", .jArr [
               .jObj [("word", .jStr "Mock"),
                      ("startTime", .jObj [("seconds", .jStr "0"), ("nanos", .jNum 0)]),
                      ("endTime", .jObj [("seconds", .jStr "1"), ("nanos", .jNum 0)]),
                      ("confidence", .jNum 0.95)],
               .jObj [("word", .jStr "transcription"),
                      ("startTime", .jObj [("seconds", .jStr "1"), ("nanos", .jNum 0)]),
                      ("endTime", .jObj [("seconds", .jStr "2"), ("nanos", .jNum 0)]),
                      ("confidence", .jNum 0.95)]])]])]])]

/-- `GoogleCloudASRProvider.transcribe`: validate (never throws),
translate, normalize the audio, build the (unused) request body, and
return the adapted canned response without any remote call. -/
def googleTranscribe (env : Env) (r : TranscriptionRequest)
    (options : RequestOptions) :
    Except ASRErr TranscriptionResult × List RemoteCall :=
  match normalizeAudioBytes env "google" r.file with
  | .error e => (.error (googleWrap e), [])
  | .ok audioData =>
      let _requestBody := googleRequestBody r audioData
      (.ok (googleAdaptResponse googleMockResponse), [])

/-! ## Dispatch client (src/asr/client.ts) -/

/-- OpenAI provider configuration. -/
structure OpenAIASRConfig where
  apiKey : String
  baseURL : Option String := none
  organization : Option String := none
deriving Repr

/-- The construction-time configuration mapping. -/
structure ASRProviderConfigs where
  openai : Option OpenAIASRConfig := none
  deepgram : Option DeepgramConfig := none
  google : Option GoogleCloudConfig := none

/-- The registry keys in registration order (`initializeProviders`
checks `openai`, then `deepgram`, then `google`). -/
def configuredProviders (c : ASRProviderConfigs) : List String :=
  (if c.openai.isSome then ["openai"] else []) ++
  (if c.deepgram.isSome then ["deepgram"] else []) ++
  (if c.google.isSome then ["google"] else [])

/-- `listProviders()`. -/
def listProviders (c : ASRProviderConfigs) : List String :=
  configuredProviders c

/-- `isProviderConfigured(provider)`. -/
def isProviderConfigured (c : ASRProviderConfigs) (provider : String) : Bool :=
  provider ∈ configuredProviders c

/-- A failure of `client.audio.transcriptions.create`: the parser's plain
`Error`, or an `ASRError` from the registry lookup or the adapter. -/
inductive ClientError where
  | parseError (message : String)
  | asrError (e : ASRErr)
deriving DecidableEq, Repr

/-- `ASRClient.audio.transcriptions.create`: parse the composite model,
look the provider up in registration order, throw
`ProviderNotConfiguredError` when absent, otherwise forward the request
with the bare model name to the adapter. -/
def clientCreate (c : ASRProviderConfigs) (env : Env)
    (request : TranscriptionRequest) (options : RequestOptions) :
    Except ClientError TranscriptionResult × List RemoteCall :=
  match parseModel request.model with
  | .error msg => (.error (.parseError msg), [])
  | .ok pm =>
      let forwarded : TranscriptionRequest := { request with model := pm.model }
      if h : pm.provider = "openai" ∧ c.openai.isSome then
        let (res, calls) := openaiTranscribe env forwarded options
        (res.mapError .asrError, calls)
      else if h : pm.provider = "deepgram" ∧ c.deepgram.isSome then
        let (res, calls) := deepgramTranscribe (c.deepgram.get h.2) env forwarded options
        (res.mapError .asrError, calls)
      else if pm.provider = "google" ∧ c.google.isSome then
        let (res, calls) := googleTranscribe env forwarded options
        (res.mapError .asrError, calls)
      else
        (.error (.asrError (providerNotConfiguredError pm.provider
          (configuredProviders c))), [])

/-! ## Object algebra lemmas -/

/-- Keys of an object. -/
def objKeys (o : Obj) : List String := o.map Prod.fst

/-- An object whose keys do not repeat (every JS object is such). -/
def nodupKeys (o : Obj) : Prop := (objKeys o).Nodup

lemma getKey_setKey_self (o : Obj) (k : String) (v : Json) :
    getKey (setKey o k v) k = some v := by
  induction o with
  | nil => simp [setKey, getKey]
  | cons kv rest ih =>
      obtain ⟨k', v'⟩ := kv
      by_cases h : k' = k <;> simp [setKey, getKey, h, ih]

lemma getKey_setKey_ne (o : Obj) {k' k : String} (v : Json) (h : k' ≠ k) :
    getKey (setKey o k' v) k = getKey o k := by
  induction o with
  | nil => simp [setKey, getKey, h]
  | cons kv rest ih =>
      obtain ⟨k₁, v₁⟩ := kv
      by_cases h₁ : k₁ = k' <;> simp [setKey, getKey, h₁, h, ih]

lemma mem_objKeys_setKey {j : String} (o : Obj) (k : String) (v : Json) :
    j ∈ objKeys (setKey o k v) ↔ j ∈ objKeys o ∨ j = k := by
  induction o with
  | nil => simp [setKey, objKeys]
  | cons kv rest ih =>
      obtain ⟨k₁, v₁⟩ := kv
      by_cases h₁ : k₁ = k <;> simp [setKey, objKeys, h₁, ih] at * <;> tauto

lemma nodupKeys_setKey {o : Obj} (k : String) (v : Json) (h : nodupKeys o) :
    nodupKeys (setKey o k v) := by
  induction o with
  | nil => simp [setKey, nodupKeys, objKeys]
  | cons kv rest ih =>
      obtain ⟨k₁, v₁⟩ := kv
      simp only [nodupKeys, objKeys, List.map_cons, List.nodup_cons] at h
      by_cases h₁ : k₁ = k
      · simp only [setKey, h₁, if_pos rfl]
        simpa [nodupKeys, objKeys, h₁] using h
      · simp only [setKey, if_neg h₁]
        have := ih h.2
        simp only [nodupKeys, objKeys, List.map_cons, List.nodup_cons]
        refine ⟨?_, this⟩
        rw [show (setKey rest k v).map Prod.fst = objKeys (setKey rest k v) from rfl]
        rw [show (rest.map Prod.fst = objKeys rest) from rfl] at h
        intro hmem
        rcases (mem_objKeys_setKey rest k v).mp hmem with h2 | h2
        · exact h.1 h2
        · exact h₁ h2

lemma getKey_eq_none_of_not_mem {o : Obj} {k : String} (h : k ∉ objKeys o) :
    getKey o k = none := by
  induction o with
  | nil => rfl
  | cons kv rest ih =>
      obtain ⟨k₁, v₁⟩ := kv
      simp only [objKeys, List.map_cons, List.mem_cons] at h
      push_neg at h
      simp only [getKey]
      rw [if_neg (Ne.symm h.1), ih (by simpa [objKeys] using h.2)]

lemma getKey_mem {o : Obj} {k : String} {v : Json} (h : getKey o k = some v) :
    (k, v) ∈ o := by
  induction o with
  | nil => simp [getKey] at h
  | cons kv rest ih =>
      obtain ⟨k₁, v₁⟩ := kv
      by_cases h₁ : k₁ = k
      · subst h₁
        have h' : v₁ = v := by simpa [getKey] using h
        subst h'
        exact List.mem_cons_self _ _
      · simp only [getKey, if_neg h₁] at h
        exact List.mem_cons_of_mem _ (ih h)

/-- Spreading an object with no repeated keys over an initial object: a
key present in the spread keeps its (unique) value, one absent keeps the
initial value. -/
lemma getKey_foldl_setKey (obj : Obj) (hn : nodupKeys obj) (init : Obj) (k : String) :
    getKey (obj.foldl (fun acc kv => setKey acc kv.1 kv.2) init) k =
      (getKey obj k).or (getKey init k) := by
  induction obj generalizing init with
  | nil => simp [getKey]
  | cons kv rest ih =>
      obtain ⟨k₁, v₁⟩ := kv
      simp only [nodupKeys, objKeys, List.map_cons, List.nodup_cons] at hn
      simp only [List.foldl_cons]
      rw [ih hn.2]
      by_cases h₁ : k₁ = k
      · subst h₁
        rw [getKey_eq_none_of_not_mem (o := rest) (by simpa [objKeys] using hn.1)]
        simp [getKey, getKey_setKey_self]
      · rw [getKey_setKey_ne _ _ h₁]
        simp [getKey, h₁]

/-- A fold whose every step leaves key `j` unread and unwritten leaves
`getKey · j` unchanged. -/
lemma getKey_translateFold_frozen (step : Obj → String → Json → Obj)
    (params : Obj) (acc : Obj) (j : String)
    (h : ∀ kv ∈ params, ∀ a, getKey (step a kv.1 kv.2) j = getKey a j) :
    getKey (params.foldl (fun a kv => step a kv.1 kv.2) acc) j = getKey acc j := by
  induction params generalizing acc with
  | nil => rfl
  | cons kv rest ih =>
      simp only [List.foldl_cons]
      rw [ih _ (fun kv' hm a => h kv' (List.mem_cons_of_mem _ hm) a),
        h kv (List.mem_cons_self _ _) acc]

/-- A fold whose every step preserves key uniqueness preserves it. -/
lemma nodupKeys_foldl (step : Obj → String → Json → Obj)
    (params : Obj) (acc : Obj)
    (h : ∀ a k v, nodupKeys a → nodupKeys (step a k v))
    (hacc : nodupKeys acc) :
    nodupKeys (params.foldl (fun a kv => step a kv.1 kv.2) acc) := by
  induction params generalizing acc with
  | nil => exact hacc
  | cons kv rest ih =>
      simp only [List.foldl_cons]
      exact ih _ (h _ _ _ hacc)

/-- In an object with unique keys, filtering on a present key isolates
its one binding. -/
lemma filter_key_of_nodup {o : Obj} {k : String} {v : Json}
    (hn : nodupKeys o) (h : getKey o k = some v) :
    o.filter (fun kv => kv.1 = k) = [(k, v)] := by
  induction o with
  | nil => simp [getKey] at h
  | cons kv₁ rest ih =>
      obtain ⟨k₁, v₁⟩ := kv₁
      simp only [nodupKeys, objKeys, List.map_cons, List.nodup_cons] at hn
      by_cases h₁ : k₁ = k
      · subst h₁
        have h' : v₁ = v := by simpa [getKey] using h
        subst h'
        have : rest.filter (fun kv => kv.1 = k₁) = [] := by
          apply List.filter_eq_nil_iff.mpr
          intro kv hm hk
          exact hn.1 (by
            simp only [decide_eq_true_eq] at hk
            exact hk ▸ List.mem_map_of_mem Prod.fst hm)
        simp [List.filter_cons, this]
      · simp only [getKey, if_neg h₁] at h
        simp [List.filter_cons, h₁, ih hn.2 h]

/-! ## Translation-step lemmas -/

/-- The keys one OpenAI translation step can write for input key `k`. -/
def openaiTargets (k : String) : List String :=
  if k = "language" then ["language"]
  else if k = "timestamps" then ["response_format"]
  else if k = "temperature" then ["temperature"]
  else if strStartsWith k "openai_" then [strDrop k 7]
  else [k]

/-- The keys one Deepgram translation step can write for input key `k`. -/
def deepgramTargets (k : String) : List String :=
  if k = "language" then ["language"]
  else if k = "timestamps" then ["utterances"]
  else if k = "word_confidence" then ["smart_format"]
  else if k = "speaker_labels" then ["diarize"]
  else if strStartsWith k "deepgram_" then [strDrop k 9]
  else [k]

/-- The keys one Google translation step can write for input key `k`. -/
def googleTargets (k : String) : List String :=
  if k = "language" then ["languageCode"]
  else if k = "timestamps" then ["enableWordTimeOffsets"]
  else if k = "word_confidence" then ["enableWordConfidence"]
  else if k = "speaker_labels" then ["enableSpeakerDiarization", "diarizationSpeakerCount"]
  else if strStartsWith k "google_" then [strDrop k 7]
  else [k]

lemma openaiTranslateEntry_frozen {j k : String} (h : j ∉ openaiTargets k)
    (acc : Obj) (v : Json) :
    getKey (openaiTranslateEntry acc k v) j = getKey acc j := by
  unfold openaiTargets at h
  unfold openaiTranslateEntry
  split_ifs at h ⊢ with h₁ h₂ h₃ h₄ <;>
    simp_all <;>
    first
      | rfl
      | (exact getKey_setKey_ne _ _ (fun he => h (he ▸ rfl)))
      | (split <;> first | rfl | exact getKey_setKey_ne _ _ (fun he => h (he ▸ rfl)))

lemma deepgramTranslateEntry_frozen {j k : String} (h : j ∉ deepgramTargets k)
    (acc : Obj) (v : Json) :
    getKey (deepgramTranslateEntry acc k v) j = getKey acc j := by
  unfold deepgramTargets at h
  unfold deepgramTranslateEntry
  split_ifs at h ⊢ with h₁ h₂ h₃ h₄ h₅ <;>
    simp_all <;>
    first
      | rfl
      | (exact getKey_setKey_ne _ _ (fun he => h (he ▸ rfl)))
      | (split <;> first | rfl | exact getKey_setKey_ne _ _ (fun he => h (he ▸ rfl)))

lemma googleTranslateEntry_frozen {j k : String} (h : j ∉ googleTargets k)
    (acc : Obj) (v : Json) :
    getKey (googleTranslateEntry acc k v) j = getKey acc j := by
  unfold googleTargets at h
  unfold googleTranslateEntry
  split_ifs at h ⊢ <;>
    simp_all <;>
    first
      | rfl
      | (exact getKey_setKey_ne _ _ (fun he => h (he ▸ rfl)))
      | (rw [getKey_setKey_ne _ _ (Ne.symm h.2), getKey_setKey_ne _ _ (Ne.symm h.1)])

lemma openaiTranslateEntry_nodup (acc : Obj) (k : String) (v : Json)
    (h : nodupKeys acc) : nodupKeys (openaiTranslateEntry acc k v) := by
  unfold openaiTranslateEntry
  split_ifs <;>
    first
      | exact h
      | exact nodupKeys_setKey _ _ h
      | exact nodupKeys_setKey _ _ (nodupKeys_setKey _ _ h)

lemma deepgramTranslateEntry_nodup (acc : Obj) (k : String) (v : Json)
    (h : nodupKeys acc) : nodupKeys (deepgramTranslateEntry acc k v) := by
  unfold deepgramTranslateEntry
  split_ifs <;>
    first
      | exact h
      | exact nodupKeys_setKey _ _ h
      | exact nodupKeys_setKey _ _ (nodupKeys_setKey _ _ h)

lemma googleTranslateEntry_nodup (acc : Obj) (k : String) (v : Json)
    (h : nodupKeys acc) : nodupKeys (googleTranslateEntry acc k v) := by
  unfold googleTranslateEntry
  split_ifs <;>
    first
      | exact h
      | exact nodupKeys_setKey _ _ h
      | exact nodupKeys_setKey _ _ (nodupKeys_setKey _ _ h)

lemma nodupKeys_openaiTranslateParams (model : String) (params : Obj) :
    nodupKeys (openaiTranslateParams model params) :=
  nodupKeys_foldl _ _ _ (fun a k v h => openaiTranslateEntry_nodup a k v h)
    (by simp [nodupKeys, objKeys])

lemma nodupKeys_deepgramTranslateParams (model : String) (params : Obj) :
    nodupKeys (deepgramTranslateParams model params) :=
  nodupKeys_foldl _ _ _ (fun a k v h => deepgramTranslateEntry_nodup a k v h)
    (by simp [nodupKeys, objKeys])

lemma nodupKeys_googleTranslateParams (model : String) (params : Obj) :
    nodupKeys (googleTranslateParams model params) :=
  nodupKeys_foldl _ _ _ (fun a k v h => googleTranslateEntry_nodup a k v h)
    (by simp [nodupKeys, objKeys])

/-- The option entries of a request shadow neither `file` nor `model` in
this adapter's translation (no caller option re-targets those keys). -/
def noShadow (targets : String → List String) (r : TranscriptionRequest) : Prop :=
  ∀ kv ∈ r.extra, "file" ∉ targets kv.1 ∧ "model" ∉ targets kv.1

lemma openaiEntry_model (acc : Obj) (v : Json) :
    openaiTranslateEntry acc "model" v = setKey acc "model" v := rfl

lemma openaiEntry_file (acc : Obj) (v : Json) :
    openaiTranslateEntry acc "file" v = setKey acc "file" v := rfl

lemma deepgramEntry_model (acc : Obj) (v : Json) :
    deepgramTranslateEntry acc "model" v = setKey acc "model" v := rfl

lemma deepgramEntry_file (acc : Obj) (v : Json) :
    deepgramTranslateEntry acc "file" v = setKey acc "file" v := rfl

lemma googleEntry_model (acc : Obj) (v : Json) :
    googleTranslateEntry acc "model" v = setKey acc "model" v := rfl

lemma googleEntry_file (acc : Obj) (v : Json) :
    googleTranslateEntry acc "file" v = setKey acc "file" v := rfl

/-- The OpenAI translation of a whole request keeps `file` bound to the
raw audio value and `model` to the bare model name. -/
lemma openaiTranslate_request (r : TranscriptionRequest)
    (h : noShadow openaiTargets r) :
    getKey (openaiTranslateParams r.model (requestEntries r)) "file" =
        some (.jFile r.file) ∧
      getKey (openaiTranslateParams r.model (requestEntries r)) "model" =
        some (.jStr r.model) := by
  unfold openaiTranslateParams requestEntries
  simp only [List.foldl_cons]
  constructor
  · rw [getKey_translateFold_frozen _ _ _ _
      (fun kv hm a => openaiTranslateEntry_frozen (h kv hm).1 a kv.2)]
    simp only [openaiEntry_model, openaiEntry_file]
    exact getKey_setKey_self _ _ _
  · rw [getKey_translateFold_frozen _ _ _ _
      (fun kv hm a => openaiTranslateEntry_frozen (h kv hm).2 a kv.2)]
    simp only [openaiEntry_model, openaiEntry_file]
    rw [getKey_setKey_ne _ _ (by decide), getKey_setKey_self]

/-- The Deepgram translation of a whole request keeps `file` bound to the
raw audio value and `model` to the bare model name. -/
lemma deepgramTranslate_request (r : TranscriptionRequest)
    (h : noShadow deepgramTargets r) :
    getKey (deepgramTranslateParams r.model (requestEntries r)) "file" =
        some (.jFile r.file) ∧
      getKey (deepgramTranslateParams r.model (requestEntries r)) "model" =
        some (.jStr r.model) := by
  unfold deepgramTranslateParams requestEntries
  simp only [List.foldl_cons]
  constructor
  · rw [getKey_translateFold_frozen _ _ _ _
      (fun kv hm a => deepgramTranslateEntry_frozen (h kv hm).1 a kv.2)]
    simp only [deepgramEntry_model, deepgramEntry_file]
    exact getKey_setKey_self _ _ _
  · rw [getKey_translateFold_frozen _ _ _ _
      (fun kv hm a => deepgramTranslateEntry_frozen (h kv hm).2 a kv.2)]
    simp only [deepgramEntry_model, deepgramEntry_file]
    rw [getKey_setKey_ne _ _ (by decide), getKey_setKey_self]

/-- The Google translation of a whole request keeps `file` bound to the
raw audio value and `model` to the bare model name. -/
lemma googleTranslate_request (r : TranscriptionRequest)
    (h : noShadow googleTargets r) :
    getKey (googleTranslateParams r.model (requestEntries r)) "file" =
        some (.jFile r.file) ∧
      getKey (googleTranslateParams r.model (requestEntries r)) "model" =
        some (.jStr r.model) := by
  unfold googleTranslateParams requestEntries
  simp only [List.foldl_cons]
  constructor
  · rw [getKey_translateFold_frozen _ _ _ _
      (fun kv hm a => googleTranslateEntry_frozen (h kv hm).1 a kv.2)]
    simp only [googleEntry_model, googleEntry_file]
    exact getKey_setKey_self _ _ _
  · rw [getKey_translateFold_frozen _ _ _ _
      (fun kv hm a => googleTranslateEntry_frozen (h kv hm).2 a kv.2)]
    simp only [googleEntry_model, googleEntry_file]
    rw [getKey_setKey_ne _ _ (by decide), getKey_setKey_self]

/-! ## Splitting lemmas for the model parser -/

lemma jsSplit_ne_nil (c : Char) (l : List Char) : jsSplit c l ≠ [] := by
  cases l with
  | nil => simp [jsSplit]
  | cons x xs =>
      simp only [jsSplit]
      split
      · simp
      · split <;> simp

lemma jsSplit_not_mem (c : Char) (l : List Char) (h : c ∉ l) :
    jsSplit c l = [l] := by
  induction l with
  | nil => rfl
  | cons x xs ih =>
      simp only [List.mem_cons] at h
      push_neg at h
      simp only [jsSplit, ih h.2]
      rw [if_neg (Ne.symm h.1)]

lemma jsSplit_append (c : Char) (l r : List Char) (h : c ∉ l) :
    jsSplit c (l ++ c :: r) = l :: jsSplit c r := by
  induction l with
  | nil => simp [jsSplit]
  | cons x xs ih =>
      simp only [List.mem_cons] at h
      push_neg at h
      simp only [List.cons_append, jsSplit, List.append_eq, ih h.2]
      rw [if_neg (Ne.symm h.1)]

lemma jsSplit_length (c : Char) (l : List Char) :
    (jsSplit c l).length = l.count c + 1 := by
  induction l with
  | nil => simp [jsSplit]
  | cons x xs ih =>
      by_cases hx : x = c
      · subst hx
        simp [jsSplit, ih, List.count_cons]
      · simp only [jsSplit]
        rw [if_neg hx]
        rcases hrest : jsSplit c xs with _ | ⟨y, ys⟩
        · exact absurd hrest (jsSplit_ne_nil c xs)
        · have := ih
          rw [hrest] at this
          simpa [List.count_cons, hx] using this

lemma string_data_append (a b : String) : (a ++ b).data = a.data ++ b.data := rfl

lemma string_mk_data (s : String) : String.mk s.data = s := rfl

/-! ## Parser facts -/

lemma parseModel_valid (p m : String) (hp : p ≠ "") (hm : m ≠ "")
    (hpc : ':' ∉ p.data) (hmc : ':' ∉ m.data) :
    parseModel (p ++ ":" ++ m) = .ok ⟨p, m⟩ := by
  have hdata : (p ++ ":" ++ m).data = p.data ++ ':' :: m.data := by
    rw [string_data_append, string_data_append]
    simp
  simp only [parseModel, hdata, jsSplit_append _ _ _ hpc, jsSplit_not_mem _ _ hmc]
  simp [string_mk_data, hp, hm]

lemma parseModel_wrongColons (s : String) (h : s.data.count ':' ≠ 1) :
    parseModel s = .error ("Invalid model format: \"" ++ s ++
      "\". Expected format: \"provider:model\"") := by
  have hlen : (jsSplit ':' s.data).length ≠ 2 := by
    rw [jsSplit_length]; omega
  simp only [parseModel]
  rcases hsp : jsSplit ':' s.data with _ | ⟨a, _ | ⟨b, _ | ⟨c, rest⟩⟩⟩ <;>
    simp_all [List.length]

lemma parseModel_emptySegment (s : String) (pc mc : List Char)
    (h : jsSplit ':' s.data = [pc, mc]) (he : pc = [] ∨ mc = []) :
    parseModel s = .error ("Invalid model format: \"" ++ s ++
      "\". Both provider and model name are required.") := by
  simp only [parseModel, h]
  rcases he with he | he <;> subst he <;> simp

lemma parseModel_error_contains (s msg : String)
    (h : parseModel s = .error msg) : strContains msg s = true := by
  have hcase : msg = "Invalid model format: \"" ++ s ++
      "\". Expected format: \"provider:model\"" ∨
      msg = "Invalid model format: \"" ++ s ++
      "\". Both provider and model name are required." := by
    simp only [parseModel] at h
    rcases hsp : jsSplit ':' s.data with _ | ⟨a, _ | ⟨b, _ | ⟨c, rest⟩⟩⟩ <;>
      rw [hsp] at h <;> simp only [] at h
    · left; exact (Except.error.injEq _ _).mp h.symm ▸ rfl
    · left; exact (Except.error.injEq _ _).mp h.symm ▸ rfl
    · split at h
      · right; exact ((Except.error.injEq _ _).mp h).symm
      · exact absurd h (by simp)
    · left; exact ((Except.error.injEq _ _).mp h).symm
  have infix_of : ∀ pre post : String,
      strContains (pre ++ s ++ post) s = true := by
    intro pre post
    apply decide_eq_true
    show s.data <:+: (pre ++ s ++ post).data
    rw [string_data_append, string_data_append]
    exact ⟨pre.data, post.data, by simp⟩
  rcases hcase with h' | h' <;> subst h' <;> exact infix_of _ _

/-- C2 (amended): for identifiers `p ++ ":" ++ m` with both segments
non-empty and colon-free, `parseModel` returns `{provider := p, model := m}`;
an identifier whose colon count is not exactly one fails with the message
that quotes it and names the expected `provider:model` shape; an
identifier with exactly one colon but an empty segment fails with the
message that quotes it and states that both provider and model name are
required (this second message does not name the shape); every error
message contains the original identifier verbatim. -/
theorem parseModel_contract :
    (∀ p m : String, p ≠ "" → m ≠ "" → ':' ∉ p.data → ':' ∉ m.data →
        parseModel (p ++ ":" ++ m) = .ok ⟨p, m⟩) ∧
      (∀ s : String, s.data.count ':' ≠ 1 →
        parseModel s = .error ("Invalid model format: \"" ++ s ++
          "\". Expected format: \"provider:model\"")) ∧
      (∀ (s : String) (pc mc : List Char), jsSplit ':' s.data = [pc, mc] →
        pc = [] ∨ mc = [] →
        parseModel s = .error ("Invalid model format: \"" ++ s ++
          "\". Both provider and model name are required.")) ∧
      (∀ s msg : String, parseModel s = .error msg → strContains msg s = true) :=
  ⟨parseModel_valid, parseModel_wrongColons, parseModel_emptySegment,
    parseModel_error_contains⟩

set_option maxRecDepth 8000 in
/-- C2 counterexample: `"a:b:c"` is of the form `p ++ ":" ++ m` with
`p = "a:b"` non-empty and `m = "c"` non-empty and colon-free, yet
`parseModel` throws instead of returning `{provider := "a:b", model := "c"}`;
and for `":m"` (exactly one colon, empty provider) the thrown message does
not name the expected `provider:model` shape. -/
theorem parseModel_claim_counterexample :
    "a:b" ++ ":" ++ "c" = "a:b:c" ∧
      parseModel "a:b:c" =
        .error "Invalid model format: \"a:b:c\". Expected format: \"provider:model\"" ∧
      parseModel ":m" =
        .error "Invalid model format: \":m\". Both provider and model name are required." ∧
      strContains "Invalid model format: \":m\". Both provider and model name are required."
        "provider:model" = false :=
  ⟨rfl, rfl, rfl, rfl⟩

/-! ## Validation facts -/

lemma except_map_error_iff {α β γ : Type} (f : α → β) (x : Except γ α) (e : γ) :
    x.map f = .error e ↔ x = .error e := by
  cases x <;> simp [Except.map]

lemma openaiValidateParams_error_iff (model : String) (params : Obj) :
    (∃ e, openaiValidateParams model params = .error e) ↔
      ∃ kv ∈ params, kv.1 ∈ openaiUnsupportedParams := by
  induction params with
  | nil => simp [openaiValidateParams]
  | cons kv rest ih =>
      obtain ⟨k, v⟩ := kv
      by_cases hk : k ∈ openaiUnsupportedParams
      · simp only [openaiValidateParams, if_pos hk]
        constructor
        · intro _
          exact ⟨(k, v), List.mem_cons_self _ _, hk⟩
        · intro _
          exact ⟨unsupportedParameterError k "openai", rfl⟩
      · simp only [openaiValidateParams, if_neg hk]
        constructor
        · intro ⟨e, he⟩
          rw [except_map_error_iff] at he
          obtain ⟨kv', hm, hu⟩ := ih.mp ⟨e, he⟩
          exact ⟨kv', List.mem_cons_of_mem _ hm, hu⟩
        · intro ⟨kv', hm, hu⟩
          rcases List.mem_cons.mp hm with h' | h'
          · exact absurd (by rw [h'] at hu; exact hu) hk
          · obtain ⟨e, he⟩ := ih.mpr ⟨kv', h', hu⟩
            exact ⟨e, by rw [except_map_error_iff]; exact he⟩

lemma openaiValidateParams_error_shape (model : String) (params : Obj)
    (e : ASRErr) (h : openaiValidateParams model params = .error e) :
    e.name = "UnsupportedParameterError" ∧ e.provider = "openai" ∧
      e.code = some "UNSUPPORTED_PARAMETER" := by
  induction params with
  | nil => simp [openaiValidateParams] at h
  | cons kv rest ih =>
      obtain ⟨k, v⟩ := kv
      by_cases hk : k ∈ openaiUnsupportedParams
      · simp only [openaiValidateParams, if_pos hk] at h
        cases h
        exact ⟨rfl, rfl, rfl⟩
      · simp only [openaiValidateParams, if_neg hk] at h
        rw [except_map_error_iff] at h
        exact ih h

/-- C1 (amended): the OpenAI-style adapter's `validateParams` throws
exactly when `word_confidence` or `speaker_labels` is present among the
parameters - whatever value it carries, truthy or not - and the thrown
error is an `UnsupportedParameterError` for provider `openai`; the
Deepgram-style and Google-style adapters' `validateParams` never throw at
all: a `temperature` option (marked unsupported in the mapping table)
only produces a console warning there. -/
theorem validateParams_throw_behavior :
    (∀ (model : String) (params : Obj),
        (∃ e, openaiValidateParams model params = .error e) ↔
          ∃ kv ∈ params, kv.1 ∈ openaiUnsupportedParams) ∧
      (∀ (model : String) (params : Obj) (e : ASRErr),
        openaiValidateParams model params = .error e →
          e.name = "UnsupportedParameterError" ∧ e.provider = "openai" ∧
            e.code = some "UNSUPPORTED_PARAMETER") ∧
      (∀ (model : String) (params : Obj),
        deepgramValidateParams model params =
          .ok (params.filterMap fun kv =>
            if kv.1 ∉ deepgramSupportedParams ∧ ¬ strStartsWith kv.1 "deepgram_" then
              some kv.1
            else none)) ∧
      (∀ (model : String) (params : Obj),
        googleValidateParams model params =
          .ok (params.filterMap fun kv =>
            if kv.1 ∉ googleSupportedParams ∧ ¬ strStartsWith kv.1 "google_" then
              some kv.1
            else none)) :=
  ⟨openaiValidateParams_error_iff, openaiValidateParams_error_shape,
    fun _ _ => rfl, fun _ _ => rfl⟩

/-- C1 counterexample: the OpenAI-style adapter throws for
`word_confidence: false` although the claim says a false value must not
throw, and the Deepgram-style and Google-style adapters do not throw for
a truthy `temperature` although the claim says they must (the option is
merely returned as a console warning). -/
theorem validateParams_claim_counterexample :
    openaiValidateParams "whisper-1" [("word_confidence", .jBool false)] =
        .error (unsupportedParameterError "word_confidence" "openai") ∧
      deepgramValidateParams "nova-2" [("temperature", .jNum 1)] =
        .ok ["temperature"] ∧
      googleValidateParams "long" [("temperature", .jNum 1)] =
        .ok ["temperature"] :=
  ⟨rfl, congrArg Except.ok (by decide), congrArg Except.ok (by decide)⟩

/-- C6: for every backend adapter, translating `{timestamps: false}` (or
an empty option set) yields a parameter set without that backend's
timestamp-enabling native flag (`response_format`, `utterances`,
`enableWordTimeOffsets` respectively); and the Deepgram-style adapter
translates `{timestamps: true, word_confidence: true, speaker_labels: true}`
for model `nova-2` to exactly `{utterances: true, smart_format: true,
diarize: true}`, in that key order. -/
theorem translateParams_timestamps_flags :
    (∀ (model : String) (v : Json), truthy v = false →
        getKey (openaiTranslateParams model [("timestamps", v)]) "response_format" = none ∧
          getKey (deepgramTranslateParams model [("timestamps", v)]) "utterances" = none ∧
          getKey (googleTranslateParams model [("timestamps", v)]) "enableWordTimeOffsets" = none) ∧
      (∀ model : String,
        getKey (openaiTranslateParams model []) "response_format" = none ∧
          getKey (deepgramTranslateParams model []) "utterances" = none ∧
          getKey (googleTranslateParams model []) "enableWordTimeOffsets" = none) ∧
      deepgramTranslateParams "nova-2"
          [("timestamps", .jBool true), ("word_confidence", .jBool true),
           ("speaker_labels", .jBool true)] =
        [("utterances", .jBool true), ("smart_format", .jBool true),
         ("diarize", .jBool true)] := by
  refine ⟨?_, ?_, rfl⟩
  · intro model v h
    refine ⟨?_, ?_, ?_⟩ <;>
      simp [openaiTranslateParams, deepgramTranslateParams, googleTranslateParams,
        openaiTranslateEntry, deepgramTranslateEntry, googleTranslateEntry, h, getKey]
  · intro model
    exact ⟨rfl, rfl, rfl⟩

/-- C3: a dispatch-client call whose model string parses to a provider
key with no registered adapter throws `ProviderNotConfiguredError`
carrying that provider key, code `PROVIDER_NOT_CONFIGURED`, and the
message that lists exactly the configured provider keys in registration
order. -/
theorem clientCreate_unconfigured (c : ASRProviderConfigs) (env : Env)
    (request : TranscriptionRequest) (options : RequestOptions) (pm : ParsedModel)
    (hp : parseModel request.model = .ok pm)
    (hn : pm.provider ∉ configuredProviders c) :
    clientCreate c env request options =
        (.error (.asrError (providerNotConfiguredError pm.provider
          (configuredProviders c))), []) ∧
      (providerNotConfiguredError pm.provider (configuredProviders c)).code =
        some "PROVIDER_NOT_CONFIGURED" ∧
      (providerNotConfiguredError pm.provider (configuredProviders c)).provider =
        pm.provider ∧
      (providerNotConfiguredError pm.provider (configuredProviders c)).message =
        "Provider '" ++ pm.provider ++ "' is not configured. Available providers: " ++
          String.intercalate ", " (configuredProviders c) := by
  have h1 : ¬(pm.provider = "openai" ∧ c.openai.isSome) := by
    rintro ⟨he, hs⟩
    exact hn (by simp [configuredProviders, hs, he])
  have h2 : ¬(pm.provider = "deepgram" ∧ c.deepgram.isSome) := by
    rintro ⟨he, hs⟩
    exact hn (by simp [configuredProviders, hs, he])
  have h3 : ¬(pm.provider = "google" ∧ c.google.isSome) := by
    rintro ⟨he, hs⟩
    exact hn (by simp [configuredProviders, hs, he])
  refine ⟨?_, rfl, rfl, rfl⟩
  simp only [clientCreate, hp]
  rw [dif_neg h1, dif_neg h2, if_neg h3]

set_option maxRecDepth 8000 in
/-- C3 witness: with only `deepgram` configured, transcribing
`openai:whisper-1` yields `ProviderNotConfiguredError` for `openai` with
available list `["deepgram"]`. -/
theorem clientCreate_unconfigured_witness :
    clientCreate { deepgram := some { apiKey := "k" } } {}
        { model := "openai:whisper-1", file := .buffer [1, 2] } {} =
      (.error (.asrError (providerNotConfiguredError "openai" ["deepgram"])), []) := by
  have h := clientCreate_unconfigured { deepgram := some { apiKey := "k" } } {}
    { model := "openai:whisper-1", file := .buffer [1, 2] } {}
    ⟨"openai", "whisper-1"⟩ rfl (by decide)
  simpa [configuredProviders] using h.1

/-! ## Remote-call shape lemmas -/

lemma deepgramTranscribe_call_shape (cfg : DeepgramConfig) (env : Env)
    (r : TranscriptionRequest) (options : RequestOptions) :
    ∀ call ∈ (deepgramTranscribe cfg env r options).2,
      call.query = deepgramQueryParams r ∧
        call.signal = (match options.timeout with
          | some t => if t ≠ 0 then some t else none
          | none => none) := by
  intro call hc
  unfold deepgramTranscribe at hc
  generalize hsig : (match options.timeout with
    | some t => if t ≠ 0 then some t else none
    | none => none : Option Nat) = sig at hc ⊢
  split at hc
  · simp at hc
  · repeat' split at hc
    all_goals (simp only [List.mem_singleton] at hc; subst hc; exact ⟨rfl, rfl⟩)

lemma openaiTranscribe_call_shape (env : Env) (r : TranscriptionRequest)
    (options : RequestOptions) :
    ∀ call ∈ (openaiTranscribe env r options).2,
      call.body = .jObj (openaiRequestBody r) ∧ call.signal = none := by
  intro call hc
  unfold openaiTranscribe at hc
  split at hc
  · simp at hc
  · split at hc <;>
      (simp only [List.mem_singleton] at hc; subst hc; exact ⟨rfl, rfl⟩)

lemma googleTranscribe_no_calls (env : Env) (r : TranscriptionRequest)
    (options : RequestOptions) : (googleTranscribe env r options).2 = [] := by
  unfold googleTranscribe
  split <;> rfl

/-- C8 (amended): only the Deepgram-style adapter attaches an abort
signal derived from `options.timeout` (via `AbortSignal.timeout`) to its
remote call; the OpenAI-style adapter issues its backend call with no
abort mechanism derived from the options at all, and the Google-style
adapter performs no remote call. -/
theorem timeout_abort_wiring :
    (∀ (cfg : DeepgramConfig) (env : Env) (r : TranscriptionRequest)
        (options : RequestOptions) (t : Nat), options.timeout = some t → t ≠ 0 →
        ∀ call ∈ (deepgramTranscribe cfg env r options).2, call.signal = some t) ∧
      (∀ (env : Env) (r : TranscriptionRequest) (options : RequestOptions),
        ∀ call ∈ (openaiTranscribe env r options).2, call.signal = none) ∧
      (∀ (env : Env) (r : TranscriptionRequest) (options : RequestOptions),
        (googleTranscribe env r options).2 = []) := by
  refine ⟨?_, ?_, ?_⟩
  · intro cfg env r options t ht htz call hc
    rw [(deepgramTranscribe_call_shape cfg env r options call hc).2, ht]
    simp [htz]
  · intro env r options call hc
    exact (openaiTranscribe_call_shape env r options call hc).2
  · exact googleTranscribe_no_calls

/-- C8 counterexample: with `options.timeout = 5000` the OpenAI-style
adapter still issues its one remote call with no abort mechanism
attached, so the timeout does not bound the remote call on every adapter. -/
theorem timeout_abort_claim_counterexample :
    ((openaiTranscribe { openaiCreate := .ok (.jObj [("text", .jStr "hi")]) }
        { model := "whisper-1", file := .buffer [1] }
        { timeout := some 5000 }).2.map RemoteCall.signal) = [none] := rfl

/-- With no shadowing option keys, the OpenAI SDK request body's `file`
entry is the raw request file (the spread overwrote the normalized audio). -/
lemma openaiRequestBody_file (r : TranscriptionRequest)
    (hns : noShadow openaiTargets r) :
    getKey (openaiRequestBody r) "file" = some (.jFile r.file) := by
  unfold openaiRequestBody
  rw [getKey_foldl_setKey _ (nodupKeys_openaiTranslateParams _ _) _ _,
    (openaiTranslate_request r hns).1]
  rfl

/-- With no shadowing option keys, the OpenAI SDK request body's `model`
entry is the bare model name. -/
lemma openaiRequestBody_model (r : TranscriptionRequest)
    (hns : noShadow openaiTargets r) :
    getKey (openaiRequestBody r) "model" = some (.jStr r.model) := by
  unfold openaiRequestBody
  rw [getKey_foldl_setKey _ (nodupKeys_openaiTranslateParams _ _) _ _,
    (openaiTranslate_request r hns).2]
  rfl

/-- C9: every adapter passes the whole request object (its `model` and
`file` fields included) to parameter translation, so the translated set
keeps a `file` key bound to the raw `request.file` value and a `model`
key; in the OpenAI adapter the translated entries are spread after the
normalized audio object in the SDK request body, so the body's `file` is
the raw request value, and in the Deepgram adapter the file value and a
duplicate `model` value are serialized into the query string. -/
theorem request_fields_forwarded :
    (∀ (env : Env) (r : TranscriptionRequest) (options : RequestOptions),
        noShadow openaiTargets r →
        getKey (openaiRequestBody r) "file" = some (.jFile r.file) ∧
          getKey (openaiRequestBody r) "model" = some (.jStr r.model) ∧
          ∀ call ∈ (openaiTranscribe env r options).2,
            call.body = .jObj (openaiRequestBody r)) ∧
      (∀ r : TranscriptionRequest, noShadow deepgramTargets r →
        ("file", fileToString r.file) ∈ deepgramQueryParams r ∧
          (deepgramQueryParams r).filter (fun kv => kv.1 = "model") =
            [("model", r.model), ("model", r.model)]) ∧
      (∀ r : TranscriptionRequest, noShadow googleTargets r →
        getKey (googleTranslateParams r.model (requestEntries r)) "file" =
            some (.jFile r.file) ∧
          getKey (googleTranslateParams r.model (requestEntries r)) "model" =
            some (.jStr r.model)) := by
  refine ⟨?_, ?_, ?_⟩
  · intro env r options hns
    exact ⟨openaiRequestBody_file r hns, openaiRequestBody_model r hns,
      fun call hc => (openaiTranscribe_call_shape env r options call hc).1⟩
  · intro r hns
    obtain ⟨hfile, hmodel⟩ := deepgramTranslate_request r hns
    constructor
    · unfold deepgramQueryParams
      refine List.mem_cons_of_mem _ ?_
      have hmem := getKey_mem hfile
      have : ("file", Json.jFile r.file) ∈
          (deepgramTranslateParams r.model (requestEntries r)).filter fun kv =>
            match kv.2 with
            | .jUndefined => false
            | .jNull => false
            | _ => true := List.mem_filter.mpr ⟨hmem, rfl⟩
      exact List.mem_map_of_mem _ this
    · unfold deepgramQueryParams
      rw [List.filter_cons]
      simp only [decide_True]
      rw [List.filter_map]
      have hcomp : ((fun kv => decide (kv.1 = "model")) ∘
          (fun kv : String × Json => (kv.1, jsToString kv.2))) =
          (fun kv : String × Json => decide (kv.1 = "model")) := rfl
      rw [hcomp]
      rw [List.filter_comm]
      rw [filter_key_of_nodup (nodupKeys_deepgramTranslateParams _ _) hmodel]
      rfl
  · intro r hns
    exact googleTranslate_request r hns

/-- C4 (amended): a `file` value in none of the three accepted
representations makes the Deepgram-style and Google-style adapters fail
before any remote call with a generic `ASRError` whose code is
`INVALID_INPUT` (not an `AudioProcessingError` with code
`AUDIO_PROCESSING_ERROR`), while the OpenAI-style adapter does not fail
at all: it forwards the unrecognized raw value onward to the backend
request body. -/
theorem unsupported_audio_input_behavior :
    (∀ (cfg : DeepgramConfig) (env : Env) (r : TranscriptionRequest)
        (options : RequestOptions) (tag : String), r.file = .other tag →
        deepgramTranscribe cfg env r options =
          (.error (mkASRError "Unsupported audio input type" "deepgram"
            (some "INVALID_INPUT")), [])) ∧
      (∀ (env : Env) (r : TranscriptionRequest) (options : RequestOptions)
          (tag : String), r.file = .other tag →
        googleTranscribe env r options =
          (.error (mkASRError "Unsupported audio input type" "google"
            (some "INVALID_INPUT")), [])) ∧
      (∀ (env : Env) (r : TranscriptionRequest) (options : RequestOptions)
          (tag : String) (j : Json) (w : List String),
        r.file = .other tag → env.openaiCreate = .ok j →
        openaiValidateParams r.model (requestEntries r) = .ok w →
        noShadow openaiTargets r →
        (openaiTranscribe env r options).1 = .ok (openaiAdaptResponse j) ∧
          getKey (openaiRequestBody r) "file" = some (.jFile (.other tag))) := by
  refine ⟨?_, ?_, ?_⟩
  · intro cfg env r options tag hfile
    unfold deepgramTranscribe
    rw [hfile]
    rfl
  · intro env r options tag hfile
    unfold googleTranscribe
    rw [hfile]
    rfl
  · intro env r options tag j w hfile hok hv hns
    constructor
    · unfold openaiTranscribe
      rw [hv, hok]
    · rw [← hfile]
      exact openaiRequestBody_file r hns

/-- C4 counterexample: an unrecognized audio value makes the Deepgram
adapter throw a plain `ASRError` with code `INVALID_INPUT`, not an
`AudioProcessingError` with code `AUDIO_PROCESSING_ERROR`; and the OpenAI
adapter does not fail at all - it completes the call with the raw
unrecognized value bound to `file` in the backend request body. -/
theorem audio_input_claim_counterexample :
    (deepgramTranscribe { apiKey := "k" } {}
          { model := "nova-2", file := .other "weird" } {}).1 =
        .error (mkASRError "Unsupported audio input type" "deepgram"
          (some "INVALID_INPUT")) ∧
      (mkASRError "Unsupported audio input type" "deepgram"
          (some "INVALID_INPUT")).code ≠ some "AUDIO_PROCESSING_ERROR" ∧
      (mkASRError "Unsupported audio input type" "deepgram"
          (some "INVALID_INPUT")).name ≠ "AudioProcessingError" ∧
      (openaiTranscribe { openaiCreate := .ok (.jObj [("text", .jStr "ok")]) }
          { model := "whisper-1", file := .other "weird" } {}).1 =
        .ok (openaiAdaptResponse (.jObj [("text", .jStr "ok")])) ∧
      getKey (openaiRequestBody { model := "whisper-1", file := .other "weird" })
          "file" = some (.jFile (.other "weird")) :=
  ⟨rfl, by decide, by decide, rfl, rfl⟩

/-- The Deepgram adapter's fallback for a response tree without the
expected `results.channels[0].alternatives[0]` structure. -/
lemma deepgramAdaptResponse_fallback (resp : Json)
    (h : truthy (deepgramAlt resp) = false) :
    deepgramAdaptResponse resp =
      { text := jsOr (jGet resp "transcript") (.jStr ""), language := .jStr "unknown",
        confidence := .jUndefined, words := [], segments := [] } := by
  unfold deepgramAdaptResponse
  simp [h]

/-- C5 (amended): transport-level failures - a rejected fetch, a non-ok
HTTP status, a failing `json()`, a rejected SDK call - are thrown as a
structured `ASRError` with code `API_ERROR`, and so is a parsed Deepgram
tree whose truthy `words` or `utterances` field is not an array (the
`forEach` TypeError is caught by the catch-all and wrapped with code
`API_ERROR`); but a parsed tree that merely fails the expected-shape
guard (`results.channels[0].alternatives[0]` falsy) is NOT an error: it
yields the silent fallback result with empty `words` and `segments`,
text from `response.transcript` (or the empty string) and no confidence. -/
theorem remote_failure_wrapping :
    (∀ (cfg : DeepgramConfig) (env : Env) (r : TranscriptionRequest)
        (options : RequestOptions) (bytes : List Nat) (msg : String),
        normalizeAudioBytes env "deepgram" r.file = .ok bytes →
        env.deepgramFetch = .error msg →
        (deepgramTranscribe cfg env r options).1 =
          .error (mkASRError ("Deepgram ASR error: " ++ msg) "deepgram"
            (some "API_ERROR"))) ∧
      (∀ (cfg : DeepgramConfig) (env : Env) (r : TranscriptionRequest)
          (options : RequestOptions) (bytes : List Nat) (resp : FetchResponse),
        normalizeAudioBytes env "deepgram" r.file = .ok bytes →
        env.deepgramFetch = .ok resp → resp.ok = false →
        (deepgramTranscribe cfg env r options).1 =
          .error (mkASRError ("Deepgram API error: " ++ toString resp.status ++
            " " ++ resp.statusText) "deepgram" (some "API_ERROR"))) ∧
      (∀ (cfg : DeepgramConfig) (env : Env) (r : TranscriptionRequest)
          (options : RequestOptions) (bytes : List Nat) (resp : FetchResponse)
          (msg : String),
        normalizeAudioBytes env "deepgram" r.file = .ok bytes →
        env.deepgramFetch = .ok resp → resp.ok = true → resp.json = .error msg →
        (deepgramTranscribe cfg env r options).1 =
          .error (mkASRError ("Deepgram ASR error: " ++ msg) "deepgram"
            (some "API_ERROR"))) ∧
      (∀ (cfg : DeepgramConfig) (env : Env) (r : TranscriptionRequest)
          (options : RequestOptions) (bytes : List Nat) (resp : FetchResponse)
          (j : Json) (msg : String),
        normalizeAudioBytes env "deepgram" r.file = .ok bytes →
        env.deepgramFetch = .ok resp → resp.ok = true → resp.json = .ok j →
        deepgramAdaptThrows j = some msg →
        (deepgramTranscribe cfg env r options).1 =
          .error (mkASRError ("Deepgram ASR error: " ++ msg) "deepgram"
            (some "API_ERROR"))) ∧
      (∀ resp : Json, truthy (deepgramAlt resp) = true →
        truthy (jGet (deepgramAlt resp) "words") = true →
        jsIsArray (jGet (deepgramAlt resp) "words") = false →
        deepgramAdaptThrows resp =
          some "alternative.words.forEach is not a function") ∧
      (∀ (cfg : DeepgramConfig) (env : Env) (r : TranscriptionRequest)
          (options : RequestOptions) (bytes : List Nat) (resp : FetchResponse)
          (j : Json),
        normalizeAudioBytes env "deepgram" r.file = .ok bytes →
        env.deepgramFetch = .ok resp → resp.ok = true → resp.json = .ok j →
        deepgramAdaptThrows j = none →
        (deepgramTranscribe cfg env r options).1 = .ok (deepgramAdaptResponse j)) ∧
      (∀ resp : Json, truthy (deepgramAlt resp) = false →
        deepgramAdaptThrows resp = none ∧
          deepgramAdaptResponse resp =
            { text := jsOr (jGet resp "transcript") (.jStr ""),
              language := .jStr "unknown", confidence := .jUndefined,
              words := [], segments := [] }) ∧
      (∀ (env : Env) (r : TranscriptionRequest) (options : RequestOptions)
          (msg : String) (w : List String),
        openaiValidateParams r.model (requestEntries r) = .ok w →
        env.openaiCreate = .error msg →
        (openaiTranscribe env r options).1 =
          .error (mkASRError ("OpenAI ASR error: " ++ msg) "openai"
            (some "API_ERROR"))) := by
  refine ⟨?_, ?_, ?_, ?_, ?_, ?_, ?_, ?_⟩
  · intro cfg env r options bytes msg hn hf
    unfold deepgramTranscribe
    rw [hn, hf]
    rfl
  · intro cfg env r options bytes resp hn hf hok
    unfold deepgramTranscribe
    rw [hn, hf]
    simp [hok]
  · intro cfg env r options bytes resp msg hn hf hok hj
    unfold deepgramTranscribe
    rw [hn, hf]
    simp only [hok, hj, if_true]
    rfl
  · intro cfg env r options bytes resp j msg hn hf hok hj hthrow
    unfold deepgramTranscribe
    rw [hn, hf]
    simp only [hok, hj, hthrow, if_true]
    rfl
  · intro resp halt hw harr
    unfold deepgramAdaptThrows
    simp [halt, hw, harr]
  · intro cfg env r options bytes resp j hn hf hok hj hthrow
    unfold deepgramTranscribe
    rw [hn, hf]
    simp [hok, hj, hthrow]
  · intro resp h
    refine ⟨?_, deepgramAdaptResponse_fallback resp h⟩
    unfold deepgramAdaptThrows
    simp [h]
  · intro env r options msg w hv he
    unfold openaiTranscribe
    rw [hv, he]

/-- C5 counterexample: a remote call that succeeds with the well-formed
but unexpected JSON tree `{}` makes the Deepgram adapter return a silent
empty `TranscriptionResult` (empty text, empty words and segments, no
confidence) instead of a structured `API_ERROR`. -/
theorem silent_empty_result_counterexample :
    (deepgramTranscribe { apiKey := "k" }
        { deepgramFetch :=
            .ok { ok := true, status := 200, statusText := "OK", json := .ok (.jObj []) } }
        { model := "nova-2", file := .buffer [1] } {}).1 =
      .ok { text := .jStr "", language := .jStr "unknown", confidence := .jUndefined,
            words := [], segments := [] } := rfl

/-! ## Word-list normalization lemmas -/

lemma jArrElems_of_not_truthy (v : Json) (h : truthy v = false) :
    jArrElems v = [] := by
  cases v <;> simp_all [truthy, jArrElems]

lemma truthy_jArr (xs : List Json) : truthy (.jArr xs) = true := rfl

lemma jArrElems_jArr (xs : List Json) : jArrElems (.jArr xs) = xs := rfl

lemma openaiAdapt_words (resp : Json) (ws : List Json)
    (h : jGet resp "words" = .jArr ws) :
    (openaiAdaptResponse resp).words = ws.map openaiAdaptWord := by
  simp [openaiAdaptResponse, h, truthy_jArr, jArrElems_jArr]

lemma deepgramAdapt_words (resp : Json) (ws : List Json)
    (halt : truthy (deepgramAlt resp) = true)
    (h : jGet (deepgramAlt resp) "words" = .jArr ws) :
    (deepgramAdaptResponse resp).words = ws.map deepgramAdaptWord := by
  simp [deepgramAdaptResponse, halt, h, truthy_jArr, jArrElems_jArr]

/-- The raw word entries one Google `results` element contributes. -/
def googleWordEntries (result : Json) : List Json :=
  if googleResultOk result then
    jArrElems (jGet (jIdx (jGet result "alternatives") 0) "words")
  else []

/-- All word entries of a Google response tree, in adapter reading order. -/
def googleAllWordEntries (resp : Json) : List Json :=
  (jArrElems (jGet resp "results")).foldl
    (fun acc result => acc ++ googleWordEntries result) []

lemma googleResultWords_eq (result : Json) :
    googleResultWords result = (googleWordEntries result).map googleAdaptWord := by
  unfold googleResultWords googleWordEntries
  split
  · rcases hw : jGet (jIdx (jGet result "alternatives") 0) "words" with
      _ | _ | _ | b | q | s | xs | fs | f | p | bs <;>
      simp [truthy, jArrElems, hw]
  · rfl

lemma googleAdaptResult_words (acc : GAcc) (result : Json) :
    (googleAdaptResult acc result).words = acc.words ++ googleResultWords result := by
  unfold googleAdaptResult
  split
  · rfl
  · rename_i h
    unfold googleResultWords
    rw [if_neg h]
    simp

lemma googleFold_words (results : List Json) (acc : GAcc) (seen : List Json)
    (h : acc.words = seen.map googleAdaptWord) :
    (results.foldl googleAdaptResult acc).words =
      (results.foldl (fun a result => a ++ googleWordEntries result) seen).map
        googleAdaptWord := by
  induction results generalizing acc seen with
  | nil => simpa using h
  | cons r rest ih =>
      simp only [List.foldl_cons]
      refine ih _ _ ?_
      rw [googleAdaptResult_words, h, googleResultWords_eq, List.map_append]

lemma googleAdaptResponse_words (resp : Json) :
    (googleAdaptResponse resp).words = (googleAllWordEntries resp).map googleAdaptWord := by
  unfold googleAdaptResponse googleAllWordEntries
  split
  · exact googleFold_words _ _ [] rfl
  · rename_i h
    rw [jArrElems_of_not_truthy _ (by simpa using h)]
    rfl

lemma parseFloatStr_zero : parseFloatStr "0" = some 0 := by
  simp [parseFloatStr, digitsVal]

/-- The split seconds/nanos combination: the Google adapter's normalized
offset equals `seconds + nanos / 1e9` (the `|| '0'` defaulting makes the
zero cases agree as well). -/
lemma googleTime_formula (s n : Rat) :
    googleTime (.jObj [("seconds", .jNum s), ("nanos", .jNum n)]) =
      .jNum (s + n / 1000000000) := by
  by_cases hs : s = 0 <;> by_cases hn : n = 0 <;>
    simp [googleTime, jGet, getKey, jsOr, truthy, hs, hn, jsParseFloat,
      parseFloatStr_zero, jsAdd, jsDivC]

/-- C7 (amended): for every backend response tree, normalization yields a
`words` sequence of length exactly N, where N is the number of word
entries the adapter reads (for Google, across all `results` elements);
time offsets split into seconds and nanoseconds are combined as
`seconds + nanos / 1e9`; and `start ≤ end` holds for a normalized entry
exactly when the backend's own values already satisfy it - the entries
are copied (OpenAI, Deepgram) or arithmetically combined (Google), never
reordered or enforced. -/
theorem normalization_words_shape :
    (∀ (resp : Json) (ws : List Json), jGet resp "words" = .jArr ws →
        (openaiAdaptResponse resp).words.length = ws.length ∧
          ((∀ e ∈ ws, jsLe (jGet e "start") (jGet e "end") = true) →
            ∀ w ∈ (openaiAdaptResponse resp).words, jsLe w.start w.end_ = true)) ∧
      (∀ (resp : Json) (ws : List Json), truthy (deepgramAlt resp) = true →
        jGet (deepgramAlt resp) "words" = .jArr ws →
        (deepgramAdaptResponse resp).words.length = ws.length ∧
          ((∀ e ∈ ws, jsLe (jGet e "start") (jGet e "end") = true) →
            ∀ w ∈ (deepgramAdaptResponse resp).words, jsLe w.start w.end_ = true)) ∧
      (∀ resp : Json,
        (googleAdaptResponse resp).words.length = (googleAllWordEntries resp).length ∧
          ((∀ e ∈ googleAllWordEntries resp,
              jsLe (googleTime (jGet e "startTime")) (googleTime (jGet e "endTime")) = true) →
            ∀ w ∈ (googleAdaptResponse resp).words, jsLe w.start w.end_ = true)) ∧
      (∀ s n : Rat, googleTime (.jObj [("seconds", .jNum s), ("nanos", .jNum n)]) =
        .jNum (s + n / 1000000000)) := by
  refine ⟨?_, ?_, ?_, googleTime_formula⟩
  · intro resp ws h
    rw [openaiAdapt_words resp ws h]
    refine ⟨List.length_map _ _, ?_⟩
    intro hle w hw
    obtain ⟨e, he, rfl⟩ := List.mem_map.mp hw
    exact hle e he
  · intro resp ws halt h
    rw [deepgramAdapt_words resp ws halt h]
    refine ⟨List.length_map _ _, ?_⟩
    intro hle w hw
    obtain ⟨e, he, rfl⟩ := List.mem_map.mp hw
    exact hle e he
  · intro resp
    rw [googleAdaptResponse_words resp]
    refine ⟨List.length_map _ _, ?_⟩
    intro hle w hw
    obtain ⟨e, he, rfl⟩ := List.mem_map.mp hw
    exact hle e he

/-- C7 counterexample: a backend word entry with `start = 5`, `end = 1`
is normalized verbatim, so the claimed invariant `start ≤ end` of every
normalized entry is false. -/
theorem normalization_claim_counterexample :
    ((openaiAdaptResponse (.jObj [("text", .jStr "x"), ("words", .jArr
        [.jObj [("word", .jStr "x"), ("start", .jNum 5), ("end", .jNum 1)]])])).words.length
      = 1) ∧
      ((openaiAdaptResponse (.jObj [("text", .jStr "x"), ("words", .jArr
          [.jObj [("word", .jStr "x"), ("start", .jNum 5), ("end", .jNum 1)]])])).words.map
        (fun w => jsLe w.start w.end_)) = [false] := by
  constructor
  · rfl
  · simp [openaiAdaptResponse, jGet, getKey, truthy, jArrElems, openaiAdaptWord, jsLe]

/-- A file value in one of the three recognized representations whose
path (if it is one) is readable in the environment. -/
def recognizedReadable (env : Env) : FileVal → Prop
  | .path p => (env.fs p).isSome
  | .buffer _ => True
  | .bytes _ => True
  | .other _ => False

set_option maxRecDepth 8000 in
/-- C10: for every request that passes validation (Google validation
never throws) and carries a recognized, readable audio representation,
the Google-style adapter performs no remote call and returns the adapted
canned response - text `Mock transcription from Google Cloud
Speech-to-Text`, confidence `0.95`, and exactly the two words `Mock`
(0 to 1 s) and `transcription` (1 to 2 s) - independent of the
environment, the audio content and every option supplied. -/
theorem googleTranscribe_mock (env : Env) (r : TranscriptionRequest)
    (options : RequestOptions) (hrec : recognizedReadable env r.file) :
    googleTranscribe env r options = (.ok (googleAdaptResponse googleMockResponse), []) ∧
      (googleAdaptResponse googleMockResponse).text =
        .jStr "Mock transcription from Google Cloud Speech-to-Text" ∧
      (googleAdaptResponse googleMockResponse).confidence = .jNum 0.95 ∧
      ((googleAdaptResponse googleMockResponse).words.map
          (fun w => (w.text, w.start, w.end_, w.confidence, w.speaker))) =
        [(.jStr "Mock", .jNum 0, .jNum 1, .jNum 0.95, .jUndefined),
         (.jStr "transcription", .jNum 1, .jNum 2, .jNum 0.95, .jUndefined)] := by
  refine ⟨?_, by rfl, by rfl, ?_⟩
  · unfold googleTranscribe
    rcases hf : r.file with p | b | b | tag
    · rcases hb : env.fs p with _ | bytes
      · rw [hf] at hrec
        simp [recognizedReadable, hb] at hrec
      · simp [normalizeAudioBytes, hb]
    · rfl
    · rfl
    · rw [hf] at hrec
      exact absurd hrec (by simp [recognizedReadable])
  · simp [googleAdaptResponse, googleMockResponse, googleAdaptResult,
      googleResultWords, googleResultOk, googleAdaptWord, googleTime, jGet, getKey,
      jIdx, jArrElems, jsOr, truthy, jsParseFloat, parseFloatStr, digitsVal,
      jsAdd, jsDivC, jsOptToString, jsToString]

/-- C10 witness: a concrete in-memory audio buffer, default environment
and empty options get the canned result with no remote call. -/
theorem googleTranscribe_mock_witness :
    googleTranscribe {} { model := "long", file := .buffer [1, 2, 3] } {} =
      (.ok (googleAdaptResponse googleMockResponse), []) :=
  (googleTranscribe_mock {} { model := "long", file := .buffer [1, 2, 3] } {}
    trivial).1
